import Mathlib

/-!
Verification development for the `nexus-simple-router` bootstrap program
(`src/main.go`).  The program parses command-line flags into package-level
configuration variables, creates a WAMP router bound to one realm, connects a
local in-process client, starts the enabled transports (WebSocket and
RawSocket), optionally registers a delayed-echo procedure and a periodic time
publisher, and then blocks waiting for an interrupt signal; cleanup is done by
stacked `defer` calls.

The embedding below models:
  * the configuration variables and registered flags (`Config`, `initialVars`,
    `registeredFlags`, `configNoFlags`);
  * the router / client configuration records (`routerConfig`, `clientConfig`);
  * the transport option records set in the `wsEnable` / `rsEnable` blocks
    (`wsServerSetup`, `rsServerSetup`);
  * the `dev.echo` handler and the `dev.time` ticker body
    (`devEchoHandler`, `devTimeTick`, `tickerTickPublishes`);
  * the control flow of `main` as a trace of acquire / release / panic /
    signal events (`runEvents`, `run`), with the outcome of each fallible
    library call given by a `World` oracle.  The `defer` stack is carried
    explicitly, most recently deferred resource first, and popped (in LIFO
    order) both on panic unwinding and on normal return, exactly as Go does.
-/

namespace NexusSimpleRouter

/-- A WAMP payload value (element of `wamp.List`, value of `wamp.Dict`). -/
inductive Val where
  | str (s : String)
  | intv (n : Int)
  | boolean (b : Bool)
deriving DecidableEq, Repr

/-- The package-level configuration variables of `main.go` (the `var` block):
`realm`, `wsEnable`, `wsHost`, `wsPort`, `rsEnable`, `rsHost`, `rsPort`,
`rsProto`, `devEcho`, `devTime`. -/
structure Config where
  realm : String
  wsEnable : Bool
  wsHost : String
  wsPort : Nat
  rsEnable : Bool
  rsHost : String
  rsPort : Nat
  rsProto : String
  devEcho : Bool
  devTime : Bool
deriving DecidableEq, Repr

/-- The initial values of the package-level variables:
`realm = "default"`, `wsEnable = true`, `wsHost = "localhost"`,
`wsPort = 8951`, `rsEnable = true`, `rsHost = "127.0.0.1"`, `rsPort = 8952`,
`rsProto = "tcp"`, `devEcho = false`, `devTime = false`. -/
def initialVars : Config :=
  { realm := "default"
    wsEnable := true
    wsHost := "localhost"
    wsPort := 8951
    rsEnable := true
    rsHost := "127.0.0.1"
    rsPort := 8952
    rsProto := "tcp"
    devEcho := false
    devTime := false }

/-- Default value recorded when a flag is registered. -/
inductive FlagDefault where
  | strVal (s : String)
  | natVal (n : Nat)
  | boolVal (b : Bool)
deriving DecidableEq, Repr

/-- The flags registered in `main`, as (name, default) pairs, in registration
order.  Note the first registration is `flag.StringVar(&realm, realm,
"default", ...)`: the NAME argument is the current value of the variable
`realm`, not the literal `"realm"`. -/
def registeredFlags : List (String × FlagDefault) :=
  [ (initialVars.realm, FlagDefault.strVal "default")
  , ("ws", FlagDefault.boolVal initialVars.wsEnable)
  , ("ws-host", FlagDefault.strVal initialVars.wsHost)
  , ("ws-port", FlagDefault.natVal initialVars.wsPort)
  , ("rs", FlagDefault.boolVal initialVars.rsEnable)
  , ("rs-host", FlagDefault.strVal initialVars.rsHost)
  , ("rs-port", FlagDefault.natVal initialVars.rsPort)
  , ("rs-proto", FlagDefault.strVal initialVars.rsProto)
  , ("decho", FlagDefault.boolVal initialVars.devEcho)
  , ("dtime", FlagDefault.boolVal initialVars.devTime) ]

/-- `flag.Parse()` with no command-line arguments leaves every registered
variable at its default, so the configuration is the initial one. -/
def configNoFlags : Config := initialVars

/-- `wsAddr := fmt.Sprintf("%s:%d", wsHost, wsPort)`. -/
def wsAddr (cfg : Config) : String := cfg.wsHost ++ ":" ++ toString cfg.wsPort

/-- `rsAddr := fmt.Sprintf("%s:%d", rsHost, rsPort)`. -/
def rsAddr (cfg : Config) : String := cfg.rsHost ++ ":" ++ toString cfg.rsPort

/-- One entry of `router.Config.RealmConfigs`. -/
structure RealmConfig where
  uri : String
  anonymousAuth : Bool
  allowDisclose : Bool
deriving DecidableEq, Repr

/-- `router.Config` as built in `main`: a single realm config with
`URI = wamp.URI(realm)`, `AnonymousAuth = true`, `AllowDisclose = true`. -/
structure RouterConfig where
  realmConfigs : List RealmConfig
deriving DecidableEq, Repr

/-- The `routerConfig` value built in `main`. -/
def routerConfig (cfg : Config) : RouterConfig :=
  { realmConfigs :=
      [ { uri := cfg.realm, anonymousAuth := true, allowDisclose := true } ] }

/-- `client.Config` as built in `main` (the logger is not modelled). -/
structure ClientConfig where
  realm : String
deriving DecidableEq, Repr

/-- The `clientConfig` value built in `main`: `Realm: realm`. -/
def clientConfig (cfg : Config) : ClientConfig := { realm := cfg.realm }

/-- An incoming HTTP request, as seen by the origin-check callback. -/
structure HttpRequest where
  origin : String
deriving DecidableEq, Repr

/-- The options `main` sets on the WebSocket server before listening. -/
structure WebsocketServerCfg where
  enableCompression : Bool
  checkOrigin : HttpRequest → Bool
  enableTrackingCookie : Bool
  keepAliveSeconds : Nat

/-- The WebSocket server setup of the `wsEnable` block:
`Upgrader.EnableCompression = true`, `Upgrader.CheckOrigin = func(...) bool
{ return true }`, `EnableTrackingCookie = true`,
`KeepAlive = 30 * time.Second`. -/
def wsServerSetup : WebsocketServerCfg :=
  { enableCompression := true
    checkOrigin := fun _ => true
    enableTrackingCookie := true
    keepAliveSeconds := 30 }

/-- The options `main` sets on the RawSocket server before listening. -/
structure RawSocketServerCfg where
  keepAliveSeconds : Nat
deriving DecidableEq, Repr

/-- The RawSocket server setup of the `rsEnable` block:
`KeepAlive = 30 * time.Second`. -/
def rsServerSetup : RawSocketServerCfg := { keepAliveSeconds := 30 }

/-- A `wamp.Invocation` as far as the `dev.echo` handler reads it. -/
structure Invocation where
  arguments : List Val
  argumentsKw : List (String × Val)
  details : List (String × Val)
deriving DecidableEq, Repr

/-- A `client.InvokeResult`. -/
structure InvokeResult where
  args : List Val
  kwargs : List (String × Val)
deriving DecidableEq, Repr

/-- The `time.Sleep(2 * time.Second)` delay of the `dev.echo` handler,
in seconds. -/
def echoDelaySeconds : Nat := 2

/-- The `dev.echo` callback: sleep for `echoDelaySeconds`, then return
`InvokeResult{Args: inv.Arguments, Kwargs: inv.ArgumentsKw}`.  The sleep is
modelled as the first component of the result. -/
def devEchoHandler (inv : Invocation) : Nat × InvokeResult :=
  (echoDelaySeconds, { args := inv.arguments, kwargs := inv.argumentsKw })

/-- A wall-clock instant, as far as `time.Time.Format(time.RFC3339)` uses it. -/
structure Time where
  year : Nat
  month : Nat
  day : Nat
  hour : Nat
  minute : Nat
  second : Nat
  tzOffsetMinutes : Int
deriving DecidableEq, Repr

/-- Zero-pad a number to two digits. -/
def pad2 (n : Nat) : String :=
  if n < 10 then "0" ++ toString n else toString n

/-- Zero-pad a number to four digits. -/
def pad4 (n : Nat) : String :=
  if n < 10 then "000" ++ toString n
  else if n < 100 then "00" ++ toString n
  else if n < 1000 then "0" ++ toString n
  else toString n

/-- `time.RFC3339` layout: `2006-01-02T15:04:05Z07:00`. -/
def formatRFC3339 (t : Time) : String :=
  let date := pad4 t.year ++ "-" ++ pad2 t.month ++ "-" ++ pad2 t.day
  let clock := pad2 t.hour ++ ":" ++ pad2 t.minute ++ ":" ++ pad2 t.second
  let zone :=
    if t.tzOffsetMinutes = 0 then "Z"
    else if 0 < t.tzOffsetMinutes then
      "+" ++ pad2 (t.tzOffsetMinutes.toNat / 60) ++ ":"
        ++ pad2 (t.tzOffsetMinutes.toNat % 60)
    else
      "-" ++ pad2 ((-t.tzOffsetMinutes).toNat / 60) ++ ":"
        ++ pad2 ((-t.tzOffsetMinutes).toNat % 60)
  date ++ "T" ++ clock ++ zone

/-- One call to `client.Publish(topic, options, args, kwargs)`. -/
structure PublishCall where
  topic : String
  options : List (String × Val)
  args : List Val
  kwargs : List (String × Val)
deriving DecidableEq, Repr

/-- The `time.NewTicker(time.Second * 5)` interval, in seconds. -/
def tickerIntervalSeconds : Nat := 5

/-- The publish performed on one ticker tick:
`localClient.Publish("dev.time", wamp.Dict{}, wamp.List{nowStr}, wamp.Dict{})`
with `nowStr := now.Format(time.RFC3339)`. -/
def devTimeTick (now : Time) : PublishCall :=
  { topic := "dev.time"
    options := []
    args := [Val.str (formatRFC3339 now)]
    kwargs := [] }

/-- All publishes performed by the `case <-ticker.C` branch on one tick. -/
def tickerTickPublishes (now : Time) : List PublishCall :=
  [devTimeTick now]

/-- Outcome oracle for the fallible library calls `main` makes, in program
order: `router.NewRouter`, `client.ConnectLocal`, the WebSocket
`ListenAndServe`, the RawSocket `ListenAndServe`, and `client.Register`
(inside `createLocalCallee`). -/
structure World where
  newRouterOk : Bool
  connectLocalOk : Bool
  wsListenOk : Bool
  rsListenOk : Bool
  registerOk : Bool
deriving DecidableEq, Repr

/-- The resources `main` acquires. -/
inductive Resource where
  | routerHandle
  | localSession
  | wsListener
  | rsListener
  | tickerTimer
deriving DecidableEq, Repr

/-- The phase at which a `panic` occurs. -/
inductive Phase where
  | noTransport
  | routerCreate
  | connectLocal
  | wsListen
  | rsListen
  | registerEcho
deriving DecidableEq, Repr

/-- An observable event of one run of `main`. -/
inductive Event where
  | acquire (r : Resource)
  | release (r : Resource)
  | panicked (p : Phase)
  | shutdownSignal
deriving DecidableEq, Repr

/-- Running the `defer`red `Close` calls.  The stack holds the most recently
deferred resource first, so mapping over it releases in LIFO order, which is
the reverse of acquisition order.  Go runs the defers both on a `panic` and on
normal return from `main`. -/
def runDefers (stack : List Resource) : List Event :=
  stack.map Event.release

/-- Nothing in `main` ever sends on or closes the `tickerQuit` channel. -/
def tickerQuitSignalled : Bool := false

/-- The ticker goroutine stops the ticker (releasing the timer) only in its
`case <-tickerQuit` branch, i.e. only if `tickerQuit` is ever signalled. -/
def tickerGoroutineReleases (quit : Bool) : List Event :=
  if quit then [Event.release Resource.tickerTimer] else []

/-- The control flow of `main` after `flag.Parse()`, as a trace of events,
parameterised by the four configuration booleans it branches on and by the
`World` oracle for the fallible library calls.  The `defers` lists carry the
`defer` stack (most recently deferred first). -/
def runEvents (wsEnable rsEnable devEcho devTime : Bool) (w : World) :
    List Event :=
  if !wsEnable && !rsEnable then
    [Event.panicked Phase.noTransport]
  else if !w.newRouterOk then
    [Event.panicked Phase.routerCreate]
  else
    let defers1 : List Resource := [Resource.routerHandle]
    let ev1 := [Event.acquire Resource.routerHandle]
    if !w.connectLocalOk then
      ev1 ++ [Event.panicked Phase.connectLocal] ++ runDefers defers1
    else
      let defers2 := Resource.localSession :: defers1
      let ev2 := ev1 ++ [Event.acquire Resource.localSession]
      if wsEnable && !w.wsListenOk then
        ev2 ++ [Event.panicked Phase.wsListen] ++ runDefers defers2
      else
        let defers3 :=
          if wsEnable then Resource.wsListener :: defers2 else defers2
        let ev3 :=
          ev2 ++ if wsEnable then [Event.acquire Resource.wsListener] else []
        if rsEnable && !w.rsListenOk then
          ev3 ++ [Event.panicked Phase.rsListen] ++ runDefers defers3
        else
          let defers4 :=
            if rsEnable then Resource.rsListener :: defers3 else defers3
          let ev4 :=
            ev3 ++ if rsEnable then [Event.acquire Resource.rsListener] else []
          if devEcho && !w.registerOk then
            ev4 ++ [Event.panicked Phase.registerEcho] ++ runDefers defers4
          else
            let ev5 :=
              ev4 ++ if devTime then [Event.acquire Resource.tickerTimer] else []
            ev5 ++ [Event.shutdownSignal]
              ++ tickerGoroutineReleases tickerQuitSignalled
              ++ runDefers defers4

/-- One run of `main` under configuration `cfg` and oracle `w`.  The trace
depends only on the boolean fields of `cfg`; the string and port fields feed
only the addresses and log lines. -/
def run (cfg : Config) (w : World) : List Event :=
  runEvents cfg.wsEnable cfg.rsEnable cfg.devEcho cfg.devTime w

/-- The resources acquired in a trace, in order. -/
def acquiresOf (l : List Event) : List Resource :=
  l.filterMap fun e =>
    match e with
    | Event.acquire r => some r
    | _ => none

/-- The resources released in a trace, in order. -/
def releasesOf (l : List Event) : List Resource :=
  l.filterMap fun e =>
    match e with
    | Event.release r => some r
    | _ => none

/-- Whether a trace contains a panic. -/
def panics (l : List Event) : Bool :=
  l.any fun e =>
    match e with
    | Event.panicked _ => true
    | _ => false

/-- Index of the first occurrence of an event in a trace. -/
def idxOf (e : Event) : List Event → Option Nat
  | [] => none
  | x :: xs => if x = e then some 0 else (idxOf e xs).map Nat.succ

/-- `before a b l` holds when both events occur in `l` and the first
occurrence of `a` is strictly earlier than the first occurrence of `b`. -/
def before (a b : Event) (l : List Event) : Bool :=
  match idxOf a l, idxOf b l with
  | some i, some j => Nat.blt i j
  | _, _ => false

/-- A sample instant, used for concrete evaluations. -/
def sampleTime : Time :=
  { year := 2026
    month := 10
    day := 11
    hour := 9
    minute := 30
    second := 5
    tzOffsetMinutes := 0 }

/-- The all-successful oracle. -/
def worldOk : World :=
  { newRouterOk := true
    connectLocalOk := true
    wsListenOk := true
    rsListenOk := true
    registerOk := true }

/-- Helper: with both transports disabled, the trace is exactly the
no-transport panic, with no acquisitions, for every oracle. -/
theorem runEvents_no_transport :
    ∀ (ws rs de dt a b c d e : Bool), ws = false → rs = false →
      runEvents ws rs de dt ⟨a, b, c, d, e⟩ = [Event.panicked Phase.noTransport]
      ∧ acquiresOf (runEvents ws rs de dt ⟨a, b, c, d, e⟩) = [] := by
  decide

/-- Helper: the local session is acquired strictly before either listener
whenever that listener is acquired, and a failed `ConnectLocal` starts no
transport. -/
theorem runEvents_session_first :
    ∀ (ws rs de dt a b c d e : Bool),
      (before (Event.acquire Resource.localSession)
          (Event.acquire Resource.wsListener) (runEvents ws rs de dt ⟨a, b, c, d, e⟩)
        = (runEvents ws rs de dt ⟨a, b, c, d, e⟩).contains
            (Event.acquire Resource.wsListener))
      ∧ (before (Event.acquire Resource.localSession)
          (Event.acquire Resource.rsListener) (runEvents ws rs de dt ⟨a, b, c, d, e⟩)
        = (runEvents ws rs de dt ⟨a, b, c, d, e⟩).contains
            (Event.acquire Resource.rsListener))
      ∧ (b = false →
          Event.acquire Resource.wsListener ∉ runEvents ws rs de dt ⟨a, b, c, d, e⟩
          ∧ Event.acquire Resource.rsListener ∉ runEvents ws rs de dt ⟨a, b, c, d, e⟩) := by
  decide

/-- Helper: when a listener start or the registration fails (after router and
session succeeded), the trace panics, never reaches the signal wait, and the
released resources are exactly the acquired ones in reverse order. -/
theorem runEvents_fail_fast :
    ∀ (ws rs de dt a b c d e : Bool), a = true → b = true →
      ((ws = true ∧ c = false) ∨ (rs = true ∧ d = false)
        ∨ (de = true ∧ e = false)) →
      panics (runEvents ws rs de dt ⟨a, b, c, d, e⟩) = true
      ∧ releasesOf (runEvents ws rs de dt ⟨a, b, c, d, e⟩)
          = (acquiresOf (runEvents ws rs de dt ⟨a, b, c, d, e⟩)).reverse
      ∧ Event.shutdownSignal ∉ runEvents ws rs de dt ⟨a, b, c, d, e⟩ := by
  decide

/-- Claim C1: when both the `ws` and `rs` transports are disabled, `main`
panics before any resource is created — the trace is exactly the no-transport
panic and nothing is ever acquired (no router handle, no session, no
listener). -/
theorem C1_no_transport_aborts_before_resources (cfg : Config) (w : World)
    (hws : cfg.wsEnable = false) (hrs : cfg.rsEnable = false) :
    run cfg w = [Event.panicked Phase.noTransport]
    ∧ acquiresOf (run cfg w) = [] := by
  obtain ⟨rm, ws, wh, wp, rs, rh, rp, rpr, de, dt⟩ := cfg
  obtain ⟨a, b, c, d, e⟩ := w
  exact runEvents_no_transport ws rs de dt a b c d e hws hrs

/-- Witness for C1 at the concrete configuration with both transports
disabled and the all-successful oracle. -/
theorem C1_no_transport_aborts_before_resources_witness :
    run { initialVars with wsEnable := false, rsEnable := false } worldOk
        = [Event.panicked Phase.noTransport]
    ∧ acquiresOf
        (run { initialVars with wsEnable := false, rsEnable := false } worldOk)
        = [] :=
  C1_no_transport_aborts_before_resources
    { initialVars with wsEnable := false, rsEnable := false } worldOk rfl rfl

/-- Claim C2, code behaviour at the failing input: with the periodic time
publisher enabled and every library call succeeding, the first shutdown
signal releases the raw-socket listener, the upgrade listener, the local
session and the router handle in that (reverse-acquisition) order — but the
ticker timer, although acquired, is never released, because nothing in `main`
ever signals `tickerQuit`. -/
theorem C2_ticker_never_released :
    run { initialVars with devTime := true } worldOk
      = [Event.acquire Resource.routerHandle,
         Event.acquire Resource.localSession,
         Event.acquire Resource.wsListener,
         Event.acquire Resource.rsListener,
         Event.acquire Resource.tickerTimer,
         Event.shutdownSignal,
         Event.release Resource.rsListener,
         Event.release Resource.wsListener,
         Event.release Resource.localSession,
         Event.release Resource.routerHandle]
    ∧ Event.acquire Resource.tickerTimer
        ∈ run { initialVars with devTime := true } worldOk
    ∧ Event.release Resource.tickerTimer
        ∉ run { initialVars with devTime := true } worldOk
    ∧ tickerQuitSignalled = false := by
  decide

/-- Claim C3: the `dev.echo` handler sleeps for the fixed 2-second delay and
then returns exactly the invocation's positional and keyword arguments,
unchanged — it is the identity on its argument payload. -/
theorem C3_echo_identity (inv : Invocation) :
    devEchoHandler inv
      = (2, { args := inv.arguments, kwargs := inv.argumentsKw })
    ∧ echoDelaySeconds = 2 :=
  ⟨rfl, rfl⟩

/-- Witness for C3 at a concrete invocation payload. -/
theorem C3_echo_identity_witness :
    devEchoHandler
        { arguments := [Val.intv 41, Val.str "x"]
          argumentsKw := [("k", Val.boolean true)]
          details := [] }
      = (2, { args := [Val.intv 41, Val.str "x"]
              kwargs := [("k", Val.boolean true)] })
    ∧ echoDelaySeconds = 2 :=
  C3_echo_identity
    { arguments := [Val.intv 41, Val.str "x"]
      argumentsKw := [("k", Val.boolean true)]
      details := [] }

/-- Claim C4: in every run, the local session is acquired strictly before
either transport listener whenever that listener is acquired at all (the
`before = contains` equations), and when `ConnectLocal` fails no transport is
ever started. -/
theorem C4_session_before_transports (cfg : Config) (w : World) :
    before (Event.acquire Resource.localSession)
        (Event.acquire Resource.wsListener) (run cfg w)
      = (run cfg w).contains (Event.acquire Resource.wsListener)
    ∧ before (Event.acquire Resource.localSession)
        (Event.acquire Resource.rsListener) (run cfg w)
      = (run cfg w).contains (Event.acquire Resource.rsListener)
    ∧ (w.connectLocalOk = false →
        Event.acquire Resource.wsListener ∉ run cfg w
        ∧ Event.acquire Resource.rsListener ∉ run cfg w) := by
  obtain ⟨rm, ws, wh, wp, rs, rh, rp, rpr, de, dt⟩ := cfg
  obtain ⟨a, b, c, d, e⟩ := w
  exact runEvents_session_first ws rs de dt a b c d e

/-- Witness for C4 at the default configuration with a failing
`ConnectLocal`. -/
theorem C4_session_before_transports_witness :
    before (Event.acquire Resource.localSession)
        (Event.acquire Resource.wsListener)
        (run initialVars { worldOk with connectLocalOk := false })
      = (run initialVars { worldOk with connectLocalOk := false }).contains
          (Event.acquire Resource.wsListener)
    ∧ before (Event.acquire Resource.localSession)
        (Event.acquire Resource.rsListener)
        (run initialVars { worldOk with connectLocalOk := false })
      = (run initialVars { worldOk with connectLocalOk := false }).contains
          (Event.acquire Resource.rsListener)
    ∧ (Event.acquire Resource.wsListener
          ∉ run initialVars { worldOk with connectLocalOk := false }
        ∧ Event.acquire Resource.rsListener
          ∉ run initialVars { worldOk with connectLocalOk := false }) :=
  ⟨(C4_session_before_transports initialVars
      { worldOk with connectLocalOk := false }).1,
   (C4_session_before_transports initialVars
      { worldOk with connectLocalOk := false }).2.1,
   (C4_session_before_transports initialVars
      { worldOk with connectLocalOk := false }).2.2 rfl⟩

/-- Claim C5: when a listener fails to bind or the demo registration fails
(router and session having succeeded), the run panics, never reaches the
signal wait, and everything acquired so far — listeners, session, router —
is released in exact reverse-acquisition order before the abort. -/
theorem C5_fail_fast_reverse_release (cfg : Config) (w : World)
    (hr : w.newRouterOk = true) (hc : w.connectLocalOk = true)
    (hfail : (cfg.wsEnable = true ∧ w.wsListenOk = false)
      ∨ (cfg.rsEnable = true ∧ w.rsListenOk = false)
      ∨ (cfg.devEcho = true ∧ w.registerOk = false)) :
    panics (run cfg w) = true
    ∧ releasesOf (run cfg w) = (acquiresOf (run cfg w)).reverse
    ∧ Event.shutdownSignal ∉ run cfg w := by
  obtain ⟨rm, ws, wh, wp, rs, rh, rp, rpr, de, dt⟩ := cfg
  obtain ⟨a, b, c, d, e⟩ := w
  exact runEvents_fail_fast ws rs de dt a b c d e hr hc hfail

/-- Witness for C5: both transports started, then the `dev.echo` registration
fails. -/
theorem C5_fail_fast_reverse_release_witness :
    panics (run { initialVars with devEcho := true }
        { worldOk with registerOk := false }) = true
    ∧ releasesOf (run { initialVars with devEcho := true }
          { worldOk with registerOk := false })
      = (acquiresOf (run { initialVars with devEcho := true }
          { worldOk with registerOk := false })).reverse
    ∧ Event.shutdownSignal ∉ run { initialVars with devEcho := true }
        { worldOk with registerOk := false } :=
  C5_fail_fast_reverse_release { initialVars with devEcho := true }
    { worldOk with registerOk := false } rfl rfl
    (Or.inr (Or.inr ⟨rfl, rfl⟩))

/-- Claim C6: the time publisher runs on a 5-second ticker, and each tick
performs exactly one publish, on topic `dev.time`, whose payload is the
single positional argument `now.Format(RFC3339)` with no keyword arguments
(and empty publish options); with `dtime` enabled the successful run does
acquire the ticker timer. -/
theorem C6_time_publisher (now : Time) :
    tickerIntervalSeconds = 5
    ∧ tickerTickPublishes now = [devTimeTick now]
    ∧ (devTimeTick now).topic = "dev.time"
    ∧ (devTimeTick now).args = [Val.str (formatRFC3339 now)]
    ∧ (devTimeTick now).kwargs = []
    ∧ (devTimeTick now).options = []
    ∧ Event.acquire Resource.tickerTimer
        ∈ run { initialVars with devTime := true } worldOk :=
  ⟨rfl, rfl, rfl, rfl, rfl, rfl, by decide⟩

/-- Witness for C6 at a concrete instant. -/
theorem C6_time_publisher_witness :
    tickerIntervalSeconds = 5
    ∧ tickerTickPublishes sampleTime = [devTimeTick sampleTime]
    ∧ (devTimeTick sampleTime).topic = "dev.time"
    ∧ (devTimeTick sampleTime).args = [Val.str (formatRFC3339 sampleTime)]
    ∧ (devTimeTick sampleTime).kwargs = []
    ∧ (devTimeTick sampleTime).options = []
    ∧ Event.acquire Resource.tickerTimer
        ∈ run { initialVars with devTime := true } worldOk :=
  C6_time_publisher sampleTime

/-- Claim C7: with no flags supplied the configuration equals the documented
defaults: realm `"default"`, ws enabled at `localhost:8951`, rs enabled at
`127.0.0.1:8952` over `tcp`, `decho` off, `dtime` off. -/
theorem C7_default_configuration :
    configNoFlags
      = { realm := "default", wsEnable := true, wsHost := "localhost",
          wsPort := 8951, rsEnable := true, rsHost := "127.0.0.1",
          rsPort := 8952, rsProto := "tcp", devEcho := false,
          devTime := false } :=
  rfl

/-- Claim C8: the WebSocket listener is configured with an origin check that
accepts every request, compression on, tracking cookie on, and a 30-second
keep-alive; the RawSocket listener is configured with the same 30-second
keep-alive. -/
theorem C8_transport_options (r : HttpRequest) :
    wsServerSetup.checkOrigin r = true
    ∧ wsServerSetup.enableCompression = true
    ∧ wsServerSetup.enableTrackingCookie = true
    ∧ wsServerSetup.keepAliveSeconds = 30
    ∧ rsServerSetup.keepAliveSeconds = 30 :=
  ⟨rfl, rfl, rfl, rfl, rfl⟩

/-- Witness for C8 at a concrete (foreign-origin) request. -/
theorem C8_transport_options_witness :
    wsServerSetup.checkOrigin { origin := "http://evil.example" } = true
    ∧ wsServerSetup.enableCompression = true
    ∧ wsServerSetup.enableTrackingCookie = true
    ∧ wsServerSetup.keepAliveSeconds = 30
    ∧ rsServerSetup.keepAliveSeconds = 30 :=
  C8_transport_options { origin := "http://evil.example" }

/-- Claim C9: the realm flag is registered under the current value of the
`realm` variable — the literal `"default"` — so the flag list contains a flag
named `default` and no flag named `realm`. -/
theorem C9_realm_flag_named_default :
    (registeredFlags.map Prod.fst).head? = some "default"
    ∧ initialVars.realm = "default"
    ∧ "realm" ∉ registeredFlags.map Prod.fst := by
  decide

/-- Claim C10: the realm of the local client's configuration is exactly the
single realm URI registered in the router's configuration — both come from
the same `realm` variable. -/
theorem C10_single_shared_realm (cfg : Config) :
    (routerConfig cfg).realmConfigs.map RealmConfig.uri
      = [(clientConfig cfg).realm]
    ∧ (clientConfig cfg).realm = cfg.realm :=
  ⟨rfl, rfl⟩

/-- Witness for C10 at the default configuration. -/
theorem C10_single_shared_realm_witness :
    (routerConfig initialVars).realmConfigs.map RealmConfig.uri
      = [(clientConfig initialVars).realm]
    ∧ (clientConfig initialVars).realm = initialVars.realm :=
  C10_single_shared_realm initialVars

end NexusSimpleRouter
